import Mathlib

/-!
Verification of the WebGPU ReSTIR GI demo against its specification.

The development shallowly embeds the program's pure logic in Lean:
* the WGSL reservoir combination routine `combine_reservoirs`
  (src/constants.ts, shader source, lines 154-171),
* the uniform-layout packer `calculateUniformLayout` and the buffer
  writer `writeParamsToBuffer` (src/components/ShaderParams.tsx),
* the renderer driver's state transitions — accumulation-counter
  resets, pipeline compilation, recording timeline — and the host
  application's shader-edit debounce.

Shader / JavaScript floating-point numbers are modelled as exact
rationals (`ℚ`); all operations appearing in the modelled code
(addition, multiplication, `min`, `max`, division, comparison) are
exact on the concrete inputs considered, so no rounding is modelled.
-/

/-- The WGSL `Reservoir` struct: a radiance sample `y : vec3f`, the
running weight sum `w_sum : f32` and the sample count `M : f32`
(src/constants.ts lines 41-45). -/
structure Reservoir where
  y : ℚ × ℚ × ℚ
  w_sum : ℚ
  M : ℚ
deriving DecidableEq, Repr

/-- The WGSL `combine_reservoirs(r, other, randVal)` routine
(src/constants.ts lines 154-171).  It clamps the incoming weight to
`max(r.w_sum * 15.0, 0.1)`, accumulates `M` and the clamped weight,
and replaces `y` by `other.y` either unconditionally when the new
`w_sum` is degenerate (`≤ 1e-6`) or with probability
`otherW / w_sum` via the supplied random draw. -/
def combine_reservoirs (r : Reservoir) (other : Reservoir) (randVal : ℚ) : Reservoir :=
  let maxW := max (r.w_sum * 15) (1/10)
  let otherW := min other.w_sum maxW
  let newM := r.M + other.M
  let newWsum := r.w_sum + otherW
  if newWsum ≤ 1/1000000 then
    { y := other.y, w_sum := newWsum, M := newM }
  else if randVal < otherW / newWsum then
    { y := other.y, w_sum := newWsum, M := newM }
  else
    { y := r.y, w_sum := newWsum, M := newM }

/-- The WGSL `update_reservoir(r, x, w, randVal)` routine
(src/constants.ts lines 139-152), included for completeness of the
reservoir model. -/
def update_reservoir (r : Reservoir) (x : ℚ × ℚ × ℚ) (w : ℚ) (randVal : ℚ) : Reservoir :=
  let newWsum := r.w_sum + w
  let newM := r.M + 1
  if newWsum ≤ 1/1000000 then
    { y := x, w_sum := newWsum, M := newM }
  else if randVal < w / newWsum then
    { y := x, w_sum := newWsum, M := newM }
  else
    { y := r.y, w_sum := newWsum, M := newM }

/-- C1: combining any two reservoirs, for every random draw, yields a
reservoir whose `M` is exactly the sum `r.M + other.M` of the input
sample counts. -/
theorem combine_reservoirs_M_additive (r o : Reservoir) (randVal : ℚ) :
    (combine_reservoirs r o randVal).M = r.M + o.M := by
  simp only [combine_reservoirs]
  split
  · rfl
  · split <;> rfl

/-- C2: for reservoirs with non-negative weights, a combine never
decreases `w_sum` below `r.w_sum`, and whenever `o.w_sum` exceeds
`15 · r.w_sum` the amount added to `r.w_sum` is the clamped value
`min(o.w_sum, max(15 · r.w_sum, 0.1))`, never the unclamped
`o.w_sum`. -/
theorem combine_reservoirs_wsum_clamped (r o : Reservoir) (randVal : ℚ)
    (hr : 0 ≤ r.w_sum) (ho : 0 ≤ o.w_sum) :
    r.w_sum ≤ (combine_reservoirs r o randVal).w_sum ∧
    (15 * r.w_sum < o.w_sum →
      (combine_reservoirs r o randVal).w_sum =
        r.w_sum + min o.w_sum (max (r.w_sum * 15) (1/10))) := by
  have hwsum : (combine_reservoirs r o randVal).w_sum =
      r.w_sum + min o.w_sum (max (r.w_sum * 15) (1/10)) := by
    simp only [combine_reservoirs]
    split
    · rfl
    · split <;> rfl
  constructor
  · rw [hwsum]
    have hmin : 0 ≤ min o.w_sum (max (r.w_sum * 15) (1/10)) := by
      apply le_min ho
      have : (0:ℚ) ≤ 1/10 := by norm_num
      exact le_trans this (le_max_right _ _)
    linarith
  · intro _
    exact hwsum

/-- Witness for C2 at concrete inputs: `r.w_sum = 1`, `o.w_sum = 20`,
draw `1/2`; both non-negativity hypotheses hold, and the combined
`w_sum` is `16 = 1 + min 20 (max 15 (1/10))`. -/
theorem combine_reservoirs_wsum_clamped_witness :
    (0:ℚ) ≤ 1 ∧ (0:ℚ) ≤ 20 ∧
    (1:ℚ) ≤ (combine_reservoirs ⟨(0,0,0), 1, 1⟩ ⟨(0,0,0), 20, 1⟩ (1/2)).w_sum ∧
    (combine_reservoirs ⟨(0,0,0), 1, 1⟩ ⟨(0,0,0), 20, 1⟩ (1/2)).w_sum =
      1 + min 20 (max (1 * 15) (1/10)) := by
  refine ⟨by norm_num, by norm_num, ?_, ?_⟩
  · exact (combine_reservoirs_wsum_clamped ⟨(0,0,0), 1, 1⟩ ⟨(0,0,0), 20, 1⟩ (1/2)
      (by norm_num) (by norm_num)).1
  · exact (combine_reservoirs_wsum_clamped ⟨(0,0,0), 1, 1⟩ ⟨(0,0,0), 20, 1⟩ (1/2)
      (by norm_num) (by norm_num)).2 (by norm_num)

/-- C3: on the reference inputs `r = {w_sum 1, M 1, y A}`,
`o = {w_sum 20, M 1, y B}` and draw `0.5`, the clamp bound is
`maxW = max(1·15, 0.1) = 15`, the clamped weight is
`otherW = min(20, 15) = 15`, the combined reservoir has
`w_sum = 16`, `M = 2`, and since `0.5 < 15/16` the sample `y`
is replaced by `B`. -/
theorem combine_reservoirs_reference_case (A B : ℚ × ℚ × ℚ) :
    max ((1:ℚ) * 15) (1/10) = 15 ∧
    min (20:ℚ) 15 = 15 ∧
    ((1:ℚ)/2 < 15/16) ∧
    combine_reservoirs ⟨A, 1, 1⟩ ⟨B, 20, 1⟩ (1/2) = ⟨B, 16, 2⟩ := by
  refine ⟨by norm_num, by norm_num, by norm_num, ?_⟩
  unfold combine_reservoirs
  norm_num

/-- The tagged `ShaderParam` union (src/types, `FloatParam` /
`ColorParam` / `Vec3Param`): every parameter has a stable string `id`
and a value; a float carries one number, a color or vec3 carries a
triple.  The UI-only fields (`label`, `min`, `max`, `step`) are not
read by the layout packer or the buffer writer and are omitted. -/
inductive ShaderParam where
  | float (id : String) (value : ℚ)
  | color (id : String) (value : ℚ × ℚ × ℚ)
  | vec3 (id : String) (value : ℚ × ℚ × ℚ)
deriving DecidableEq, Repr

/-- The `id` field of a `ShaderParam`. -/
def ShaderParam.id : ShaderParam → String
  | .float i _ => i
  | .color i _ => i
  | .vec3 i _ => i

/-- The `UniformLayout` record (src/types): total padded byte size and
the map from parameter id to byte offset.  The JavaScript object map
is modelled as an association list where the most recent write is
consed at the head, so `List.lookup` returns the last write for a
key, matching object-assignment semantics. -/
structure UniformLayout where
  size : ℕ
  offsetMap : List (String × ℕ)
deriving DecidableEq, Repr

/-- Alignment in bytes of one parameter (src/components/ShaderParams.tsx
lines 10-16): floats align to 4, colors and vec3s to 16. -/
def paramAlignment : ShaderParam → ℕ
  | .float _ _ => 4
  | .color _ _ => 16
  | .vec3 _ _ => 16

/-- Size in bytes of one parameter (src/components/ShaderParams.tsx
lines 10-16): floats occupy 4 bytes, colors and vec3s 16 bytes. -/
def paramByteSize : ShaderParam → ℕ
  | .float _ _ => 4
  | .color _ _ => 16
  | .vec3 _ _ => 16

/-- `calculateUniformLayout(params, startOffset)`
(src/components/ShaderParams.tsx lines 5-28): walk the ordered
parameter list, pad the running offset up to each parameter's
alignment, record the parameter's offset, advance by its size, and
finally pad the total size up to a multiple of 16. -/
def calculateUniformLayout (params : List ShaderParam) (startOffset : ℕ) : UniformLayout :=
  let folded := params.foldl
    (fun (acc : ℕ × List (String × ℕ)) p =>
      let align := paramAlignment p
      let padding := (align - acc.1 % align) % align
      let off := acc.1 + padding
      (off + paramByteSize p, (p.id, off) :: acc.2))
    (startOffset, [])
  let totalPadding := (16 - folded.1 % 16) % 16
  { size := folded.1 + totalPadding, offsetMap := folded.2 }

/-- One iteration of the `writeParamsToBuffer` loop
(src/components/ShaderParams.tsx lines 35-44): look the parameter's
byte offset up in the layout, divide by 4 to get a float index, and
store the value (one float) or the three components (color / vec3)
into the buffer.  A missing key, a fractional float index (byte
offset not a multiple of 4) or an out-of-range index writes nothing,
matching `Float32Array` indexed-assignment semantics (`List.set` is
the identity out of range). -/
def writeParam (data : List ℚ) (layout : UniformLayout) (p : ShaderParam) : List ℚ :=
  match layout.offsetMap.lookup p.id with
  | none => data
  | some off =>
    if off % 4 = 0 then
      match p with
      | .float _ v => data.set (off / 4) v
      | .color _ v => ((data.set (off / 4) v.1).set (off / 4 + 1) v.2.1).set (off / 4 + 2) v.2.2
      | .vec3 _ v => ((data.set (off / 4) v.1).set (off / 4 + 1) v.2.1).set (off / 4 + 2) v.2.2
    else data

/-- `writeParamsToBuffer(data, params, layout)`
(src/components/ShaderParams.tsx lines 30-45): write every parameter
of the list into the buffer in order. -/
def writeParamsToBuffer (data : List ℚ) (params : List ShaderParam)
    (layout : UniformLayout) : List ℚ :=
  params.foldl (fun d p => writeParam d layout p) data

/-- The float indices a single parameter writes: one slot at
`offset / 4` for a float, three consecutive slots for a color or
vec3; none when the id is absent from the layout or the offset is
not 4-byte aligned. -/
def paramSlots (layout : UniformLayout) (p : ShaderParam) : List ℕ :=
  match layout.offsetMap.lookup p.id with
  | none => []
  | some off =>
    if off % 4 = 0 then
      match p with
      | .float _ _ => [off / 4]
      | .color _ _ => [off / 4, off / 4 + 1, off / 4 + 2]
      | .vec3 _ _ => [off / 4, off / 4 + 1, off / 4 + 2]
    else []

/-- All float indices named by a parameter list under a layout. -/
def writtenSlots (params : List ShaderParam) (layout : UniformLayout) : List ℕ :=
  params.foldr (fun p acc => paramSlots layout p ++ acc) []

/-- A single `writeParam` leaves every float slot it does not name
unchanged. -/
theorem writeParam_frame (data : List ℚ) (layout : UniformLayout) (p : ShaderParam)
    (j : ℕ) (hj : j ∉ paramSlots layout p) :
    (writeParam data layout p)[j]? = data[j]? := by
  unfold writeParam paramSlots at *
  cases hlook : layout.offsetMap.lookup p.id with
  | none => rfl
  | some off =>
    rw [hlook] at hj
    by_cases hmod : off % 4 = 0
    · simp only [hmod, if_true] at hj ⊢
      cases p with
      | float i v =>
        simp only [List.mem_singleton] at hj
        simp [List.getElem?_set_ne (Ne.symm hj)]
      | color i v =>
        simp only [List.mem_cons, List.not_mem_nil, or_false, not_or] at hj
        simp [List.getElem?_set_ne (Ne.symm hj.1),
          List.getElem?_set_ne (Ne.symm hj.2.1),
          List.getElem?_set_ne (Ne.symm hj.2.2)]
      | vec3 i v =>
        simp only [List.mem_cons, List.not_mem_nil, or_false, not_or] at hj
        simp [List.getElem?_set_ne (Ne.symm hj.1),
          List.getElem?_set_ne (Ne.symm hj.2.1),
          List.getElem?_set_ne (Ne.symm hj.2.2)]
    · simp only [hmod, if_false]

/-- A single `writeParam` preserves the buffer length. -/
theorem writeParam_length (data : List ℚ) (layout : UniformLayout) (p : ShaderParam) :
    (writeParam data layout p).length = data.length := by
  unfold writeParam
  cases layout.offsetMap.lookup p.id with
  | none => rfl
  | some off =>
    by_cases hmod : off % 4 = 0
    · simp only [hmod, if_true]
      cases p <;> simp
    · simp [hmod]

/-- C10: `writeParamsToBuffer` writes only the float slots named by the
layout's offset map — one slot at `offset / 4` per float parameter,
three consecutive slots per color or vec3 parameter — and leaves every
other element of the buffer, including the fourth (padding) slot of
each color/vec3, unchanged; the buffer length is also preserved. -/
theorem writeParamsToBuffer_frame (data : List ℚ) (params : List ShaderParam)
    (layout : UniformLayout) :
    (writeParamsToBuffer data params layout).length = data.length ∧
    ∀ j, j ∉ writtenSlots params layout →
      (writeParamsToBuffer data params layout)[j]? = data[j]? := by
  induction params generalizing data with
  | nil => exact ⟨rfl, fun j _ => rfl⟩
  | cons p ps ih =>
    have hstep : writeParamsToBuffer data (p :: ps) layout =
        writeParamsToBuffer (writeParam data layout p) ps layout := rfl
    refine ⟨?_, ?_⟩
    · rw [hstep, (ih (writeParam data layout p)).1, writeParam_length]
    · intro j hj
      have hj' : j ∉ paramSlots layout p ∧ j ∉ writtenSlots ps layout := by
        unfold writtenSlots at hj ⊢
        simp only [List.foldr_cons, List.mem_append, not_or] at hj
        exact hj
      rw [hstep, (ih (writeParam data layout p)).2 j hj'.2,
        writeParam_frame data layout p j hj'.1]

/-- Witness for C10: a single color parameter at byte offset 16 in an
8-float buffer writes slots 4, 5, 6 only; slot 7 — the fourth
(padding) slot of the color — is not a written slot and keeps its
original value. -/
theorem writeParamsToBuffer_frame_witness :
    (7 ∉ writtenSlots [ShaderParam.color "b" (9, 9, 9)] ⟨32, [("b", 16)]⟩) ∧
    (writeParamsToBuffer [1, 2, 3, 4, 5, 6, 7, 8]
        [ShaderParam.color "b" (9, 9, 9)] ⟨32, [("b", 16)]⟩)[7]? = some 8 := by
  have h7 : 7 ∉ writtenSlots [ShaderParam.color "b" (9, 9, 9)] ⟨32, [("b", 16)]⟩ := by
    decide
  refine ⟨h7, ?_⟩
  rw [(writeParamsToBuffer_frame [1, 2, 3, 4, 5, 6, 7, 8]
    [ShaderParam.color "b" (9, 9, 9)] ⟨32, [("b", 16)]⟩).2 7 h7]
  rfl

/-- C7: the three reference cases of the layout packer.  A single
float after the 48-byte header sits at offset 48 with padded total
size 64; a single color at start offset 0 sits at offset 0 with total
size 16; a float followed by a color at start offset 0 sit at offsets
0 and 16 with total size 32. -/
theorem calculateUniformLayout_reference_cases :
    ((calculateUniformLayout [ShaderParam.float "a" 0] 48).offsetMap.lookup "a" = some 48 ∧
      (calculateUniformLayout [ShaderParam.float "a" 0] 48).size = 64) ∧
    ((calculateUniformLayout [ShaderParam.color "c" (0, 0, 0)] 0).offsetMap.lookup "c" =
        some 0 ∧
      (calculateUniformLayout [ShaderParam.color "c" (0, 0, 0)] 0).size = 16) ∧
    ((calculateUniformLayout
        [ShaderParam.float "a" 0, ShaderParam.color "b" (0, 0, 0)] 0).offsetMap.lookup "a" =
        some 0 ∧
      (calculateUniformLayout
        [ShaderParam.float "a" 0, ShaderParam.color "b" (0, 0, 0)] 0).offsetMap.lookup "b" =
        some 16 ∧
      (calculateUniformLayout
        [ShaderParam.float "a" 0, ShaderParam.color "b" (0, 0, 0)] 0).size = 32) := by
  decide

/-- Six color parameters: after the 48-byte uniform header their
packed layout needs 144 bytes, exceeding the renderer's fixed
`TOTAL_BUFFER_SIZE = 128` (src/unnamed/part_003 line 103). -/
def sixColors : List ShaderParam :=
  [ShaderParam.color "c1" (1, 1, 1), ShaderParam.color "c2" (2, 2, 2),
    ShaderParam.color "c3" (3, 3, 3), ShaderParam.color "c4" (4, 4, 4),
    ShaderParam.color "c5" (5, 5, 5), ShaderParam.color "c6" (6, 6, 6)]

/-- The renderer's uniform staging buffer: `TOTAL_BUFFER_SIZE / 4 = 32`
float slots (src/unnamed/part_003 lines 103 and 361), initially
zero. -/
def uniformStagingBuffer : List ℚ := List.replicate 32 0

/-- C6 (evidence of the code bug): the packer accepts a parameter list
whose layout (144 bytes) exceeds the fixed 128-byte uniform-block
capacity — it returns a layout instead of rejecting the
configuration, and `writeParamsToBuffer` then silently drops the
sixth color's writes (float indices 32, 33, 34 fall outside the
32-slot buffer), producing exactly the buffer obtained from the first
five colors alone: silent truncation, not rejection. -/
theorem uniformCapacity_silent_truncation :
    (calculateUniformLayout sixColors 48).size = 144 ∧
    128 < (calculateUniformLayout sixColors 48).size ∧
    writeParamsToBuffer uniformStagingBuffer sixColors (calculateUniformLayout sixColors 48) =
      writeParamsToBuffer uniformStagingBuffer (sixColors.take 5)
        (calculateUniformLayout sixColors 48) ∧
    (writeParamsToBuffer uniformStagingBuffer sixColors
        (calculateUniformLayout sixColors 48)).length = 32 := by
  decide

/-- One entry of `GPUCompilationInfo.messages` as consumed by
`compilePipeline` (src/unnamed/part_003 lines 206-216): a severity
tag (`"error"`, `"warning"`, `"info"`), the message text and its
position. -/
structure GPUCompilationMessage where
  severity : String
  message : String
  lineNum : ℕ
  linePos : ℕ
deriving DecidableEq, Repr

/-- A callback fired towards the host UI (src/unnamed/part_003:
`onError` with a compilation diagnostic, or `onClearError`). -/
inductive HostEvent where
  | errorReport (message : String) (lineNum : ℕ) (linePos : ℕ)
  | clearError
deriving DecidableEq, Repr

/-- The renderer driver's mutable state (src/unnamed/part_003): the
accumulation counter `frameIndexRef`, canvas dimensions, presence of
the two ping-pong history textures, the currently active pipeline
pair (each pipeline identified by the shader source it was built
from), the orbit-camera refs, the mouse refs, the recording flag and
the parameter list. -/
structure RendererState where
  frameIndex : ℕ
  canvasWidth : ℕ
  canvasHeight : ℕ
  hasHistoryA : Bool
  hasHistoryB : Bool
  integratorPipeline : Option String
  displayPipeline : Option String
  cameraTheta : ℚ
  cameraPhi : ℚ
  cameraRadius : ℚ
  cameraLastX : ℚ
  cameraLastY : ℚ
  isDragging : Bool
  mouseX : ℚ
  mouseY : ℚ
  mouseIsDown : ℚ
  isRecording : Bool
  params : List ShaderParam
deriving DecidableEq, Repr

/-- The initial renderer state (src/unnamed/part_003 lines 51-106):
no pipelines, no history textures, camera at
`theta 0.5, phi 0.1, radius 5.5`, zero-sized canvas. -/
def initialState : RendererState where
  frameIndex := 0
  canvasWidth := 0
  canvasHeight := 0
  hasHistoryA := false
  hasHistoryB := false
  integratorPipeline := none
  displayPipeline := none
  cameraTheta := 1/2
  cameraPhi := 1/10
  cameraRadius := 11/2
  cameraLastX := 0
  cameraLastY := 0
  isDragging := false
  mouseX := 0
  mouseY := 0
  mouseIsDown := 0
  isRecording := false
  params := []

/-- Whether `compilationInfo.messages` contains an error-severity
diagnostic (src/unnamed/part_003 lines 207-215). -/
def compilationHasError (msgs : List GPUCompilationMessage) : Bool :=
  msgs.any (fun m => m.severity == "error")

/-- `compilePipeline(device, code, context)`
(src/unnamed/part_003 lines 201-253), as a function of the
compilation diagnostics the shader module produced.  On any
error-severity diagnostic it reports each error through `onError` and
returns early: no pipeline is created and neither the pipeline refs
nor `frameIndexRef` are touched.  Otherwise it fires `onClearError`,
replaces both pipelines with ones built from the new module, and
resets `frameIndexRef` to 0. -/
def compilePipeline (s : RendererState) (code : String)
    (msgs : List GPUCompilationMessage) : RendererState × List HostEvent :=
  if compilationHasError msgs then
    (s, (msgs.filter (fun m => m.severity == "error")).map
      (fun m => HostEvent.errorReport m.message m.lineNum m.linePos))
  else
    ({ s with integratorPipeline := some code, displayPipeline := some code, frameIndex := 0 },
      [HostEvent.clearError])

/-- The render-loop resize test (src/unnamed/part_003 line 321): the
history pair is recreated when the canvas size differs from the
target output size or either history texture is missing. -/
def resizeNeeded (s : RendererState) (width height : ℕ) : Bool :=
  s.canvasWidth != width || s.canvasHeight != height || !s.hasHistoryA || !s.hasHistoryB

/-- The resize branch of `render` (src/unnamed/part_003 lines
321-332): recreate both history textures at the new size and force
the accumulation counter to 0. -/
def renderResize (s : RendererState) (width height : ℕ) : RendererState :=
  if resizeNeeded s width height then
    { s with
      canvasWidth := width
      canvasHeight := height
      hasHistoryA := true
      hasHistoryB := true
      frameIndex := 0 }
  else s

/-- The accumulation index the frame's uniforms carry
(src/unnamed/part_003 line 362): the counter value after the resize
branch ran. -/
def frameIndexUsed (s : RendererState) (width height : ℕ) : ℕ :=
  (renderResize s width height).frameIndex

/-- The counter effect of one full `render` tick
(src/unnamed/part_003 lines 321-332 and 446): resize branch, then the
post-submission increment `frameIndexRef.current++`. -/
def renderStep (s : RendererState) (width height : ℕ) : RendererState :=
  let s2 := renderResize s width height
  { s2 with frameIndex := s2.frameIndex + 1 }

/-- `handlePointerDown` (src/unnamed/part_003 lines 459-466): ignored
while recording; otherwise starts a drag and records the pointer
position.  It does not touch the accumulation counter. -/
def handlePointerDown (s : RendererState) (clientX clientY : ℚ) : RendererState :=
  if s.isRecording then s
  else
    { s with
      isDragging := true
      cameraLastX := clientX
      cameraLastY := clientY
      mouseIsDown := 1 }

/-- `handlePointerMove` (src/unnamed/part_003 lines 467-478): always
updates the hover position; while dragging it rotates the orbit
camera (`theta -= dx·0.01`, `phi` clamped to `[-1.5, 1.5]`) and
resets the accumulation counter to 0. -/
def handlePointerMove (s : RendererState) (clientX clientY rectLeft rectTop : ℚ) :
    RendererState :=
  let s2 := { s with mouseX := clientX - rectLeft, mouseY := clientY - rectTop }
  if s2.isDragging then
    let dx := clientX - s2.cameraLastX
    let dy := clientY - s2.cameraLastY
    { s2 with
      cameraLastX := clientX
      cameraLastY := clientY
      cameraTheta := s2.cameraTheta - dx * (1/100)
      cameraPhi := max (-(3/2)) (min (3/2) (s2.cameraPhi + dy * (1/100)))
      frameIndex := 0 }
  else s2

/-- `handlePointerUp` (src/unnamed/part_003 line 479): ends the drag.
It does not touch the accumulation counter. -/
def handlePointerUp (s : RendererState) : RendererState :=
  { s with isDragging := false, mouseIsDown := 0 }

/-- `handleWheel` (src/unnamed/part_003 lines 480-483): zooms the
orbit camera (`radius` clamped to `[1, 50]`) and resets the
accumulation counter to 0. -/
def handleWheel (s : RendererState) (deltaY : ℚ) : RendererState :=
  { s with
    cameraRadius := max 1 (min 50 (s.cameraRadius + deltaY * (5/1000)))
    frameIndex := 0 }

/-- `setParams` (src/unnamed/part_003 lines 86-99 via the
`ParamsControlPanel` setter): replaces the parameter list read by the
next frame's uniform pack.  It does not touch the accumulation
counter. -/
def setParams (s : RendererState) (ps : List ShaderParam) : RendererState :=
  { s with params := ps }

/-- C5: compilation with any error-severity diagnostic builds no new
pipelines (the whole renderer state, including the previously active
pipeline pair and the accumulation counter, is unchanged) and reports
exactly the error diagnostics — at least one — to the `onError`
callback; only a compilation with no error-severity diagnostic
replaces both pipelines with ones built from the new source, resets
the accumulation counter to 0, and fires `onClearError`. -/
theorem compilePipeline_failure_isolated (s : RendererState) (code : String)
    (msgs : List GPUCompilationMessage) :
    (compilationHasError msgs = true →
      (compilePipeline s code msgs).1 = s ∧
      (compilePipeline s code msgs).2 =
        (msgs.filter (fun m => m.severity == "error")).map
          (fun m => HostEvent.errorReport m.message m.lineNum m.linePos) ∧
      (compilePipeline s code msgs).2 ≠ []) ∧
    (compilationHasError msgs = false →
      (compilePipeline s code msgs).1.integratorPipeline = some code ∧
      (compilePipeline s code msgs).1.displayPipeline = some code ∧
      (compilePipeline s code msgs).1.frameIndex = 0 ∧
      (compilePipeline s code msgs).2 = [HostEvent.clearError]) := by
  constructor
  · intro h
    refine ⟨?_, ?_, ?_⟩
    · simp [compilePipeline, h]
    · simp [compilePipeline, h]
    · have h2 := h
      unfold compilationHasError at h2
      rw [List.any_eq_true] at h2
      obtain ⟨m, hm, hsev⟩ := h2
      have hmem : m ∈ msgs.filter (fun m => m.severity == "error") :=
        List.mem_filter.2 ⟨hm, hsev⟩
      have hmap : HostEvent.errorReport m.message m.lineNum m.linePos ∈
          (msgs.filter (fun m => m.severity == "error")).map
            (fun m => HostEvent.errorReport m.message m.lineNum m.linePos) :=
        List.mem_map_of_mem _ hmem
      simp only [compilePipeline, h, if_true]
      exact List.ne_nil_of_mem hmap
  · intro h
    simp [compilePipeline, h]

/-- Witness for C5: a one-error diagnostic list leaves a state with an
active pipeline pair untouched and reports the error, while an empty
diagnostic list replaces both pipelines and resets the counter. -/
theorem compilePipeline_failure_isolated_witness :
    (compilationHasError [⟨"error", "bad token", 3, 7⟩] = true ∧
      (compilePipeline
        { initialState with
          integratorPipeline := some "old"
          displayPipeline := some "old"
          frameIndex := 42 } "new" [⟨"error", "bad token", 3, 7⟩]).1 =
        { initialState with
          integratorPipeline := some "old"
          displayPipeline := some "old"
          frameIndex := 42 } ∧
      (compilePipeline
        { initialState with
          integratorPipeline := some "old"
          displayPipeline := some "old"
          frameIndex := 42 } "new" [⟨"error", "bad token", 3, 7⟩]).2 ≠ []) ∧
    (compilationHasError [] = false ∧
      (compilePipeline initialState "new" []).1.integratorPipeline = some "new" ∧
      (compilePipeline initialState "new" []).1.frameIndex = 0) := by
  have hfail := compilePipeline_failure_isolated
    { initialState with
      integratorPipeline := some "old"
      displayPipeline := some "old"
      frameIndex := 42 } "new" [⟨"error", "bad token", 3, 7⟩]
  have hok := compilePipeline_failure_isolated initialState "new" []
  refine ⟨⟨by decide, (hfail.1 (by decide)).1, (hfail.1 (by decide)).2.2⟩,
    by decide, (hok.2 (by decide)).1, (hok.2 (by decide)).2.2.1⟩

/-- C4: the accumulation counter is forced to 0 exactly on the three
reset events.  A render tick whose output size differs from the
canvas (or whose history textures are missing) uses counter value 0,
while a tick with unchanged size uses the running counter and then
increments it; a successful recompilation resets the counter and a
failed one leaves it; a pointer move while dragging (camera rotate)
and a wheel event (camera zoom) reset it; pointer down, pointer up, a
pointer move without drag, and a parameter update never change it. -/
theorem frameIndex_reset_policy :
    (∀ (s : RendererState) (w h : ℕ), resizeNeeded s w h = true →
      frameIndexUsed s w h = 0) ∧
    (∀ (s : RendererState) (w h : ℕ), resizeNeeded s w h = false →
      frameIndexUsed s w h = s.frameIndex) ∧
    (∀ (s : RendererState) (w h : ℕ),
      (renderStep s w h).frameIndex = frameIndexUsed s w h + 1) ∧
    (∀ (s : RendererState) (code : String) (msgs : List GPUCompilationMessage),
      compilationHasError msgs = false → (compilePipeline s code msgs).1.frameIndex = 0) ∧
    (∀ (s : RendererState) (code : String) (msgs : List GPUCompilationMessage),
      compilationHasError msgs = true →
        (compilePipeline s code msgs).1.frameIndex = s.frameIndex) ∧
    (∀ (s : RendererState) (cx cy rl rt : ℚ), s.isDragging = true →
      (handlePointerMove s cx cy rl rt).frameIndex = 0) ∧
    (∀ (s : RendererState) (cx cy rl rt : ℚ), s.isDragging = false →
      (handlePointerMove s cx cy rl rt).frameIndex = s.frameIndex) ∧
    (∀ (s : RendererState) (dy : ℚ), (handleWheel s dy).frameIndex = 0) ∧
    (∀ (s : RendererState) (cx cy : ℚ),
      (handlePointerDown s cx cy).frameIndex = s.frameIndex) ∧
    (∀ s : RendererState, (handlePointerUp s).frameIndex = s.frameIndex) ∧
    (∀ (s : RendererState) (ps : List ShaderParam),
      (setParams s ps).frameIndex = s.frameIndex) := by
  refine ⟨?_, ?_, ?_, ?_, ?_, ?_, ?_, ?_, ?_, ?_, ?_⟩
  · intro s w h hr
    simp [frameIndexUsed, renderResize, hr]
  · intro s w h hr
    simp [frameIndexUsed, renderResize, hr]
  · intro s w h
    rfl
  · intro s code msgs hc
    simp [compilePipeline, hc]
  · intro s code msgs hc
    simp [compilePipeline, hc]
  · intro s cx cy rl rt hd
    simp [handlePointerMove, hd]
  · intro s cx cy rl rt hd
    simp [handlePointerMove, hd]
  · intro s dy
    rfl
  · intro s cx cy
    unfold handlePointerDown
    split <;> rfl
  · intro s
    rfl
  · intro s ps
    rfl

/-- Witness for C4 at concrete states: a resize render uses counter 0;
a matching-size render uses the running counter; a drag move and a
wheel reset to 0; a non-drag move, a parameter update, a failed
compile and a successful compile behave as claimed. -/
theorem frameIndex_reset_policy_witness :
    (resizeNeeded initialState 640 480 = true ∧ frameIndexUsed initialState 640 480 = 0) ∧
    (resizeNeeded
        { initialState with
          canvasWidth := 640
          canvasHeight := 480
          hasHistoryA := true
          hasHistoryB := true
          frameIndex := 7 } 640 480 = false ∧
      frameIndexUsed
        { initialState with
          canvasWidth := 640
          canvasHeight := 480
          hasHistoryA := true
          hasHistoryB := true
          frameIndex := 7 } 640 480 = 7) ∧
    ({ initialState with isDragging := true, frameIndex := 7 }.isDragging = true ∧
      (handlePointerMove { initialState with isDragging := true, frameIndex := 7 }
        10 10 0 0).frameIndex = 0) ∧
    (initialState.isDragging = false ∧
      (handlePointerMove { initialState with frameIndex := 7 } 10 10 0 0).frameIndex = 7) ∧
    (handleWheel { initialState with frameIndex := 7 } 1).frameIndex = 0 ∧
    (setParams { initialState with frameIndex := 7 }
      [ShaderParam.float "animSpeed" 1]).frameIndex = 7 ∧
    (compilationHasError [⟨"error", "bad", 1, 1⟩] = true ∧
      (compilePipeline { initialState with frameIndex := 7 } "src"
        [⟨"error", "bad", 1, 1⟩]).1.frameIndex = 7) ∧
    (compilationHasError [] = false ∧
      (compilePipeline { initialState with frameIndex := 7 } "src" []).1.frameIndex = 0) := by
  refine ⟨⟨by decide, frameIndex_reset_policy.1 initialState 640 480 (by decide)⟩,
    ⟨by decide, frameIndex_reset_policy.2.1 _ 640 480 (by decide)⟩,
    ⟨by decide, frameIndex_reset_policy.2.2.2.2.2.1 _ 10 10 0 0 (by decide)⟩,
    ⟨by decide, ?_⟩,
    frameIndex_reset_policy.2.2.2.2.2.2.2.1 _ 1,
    frameIndex_reset_policy.2.2.2.2.2.2.2.2.2.2 _ _,
    ⟨by decide, frameIndex_reset_policy.2.2.2.2.1 _ "src" _ (by decide)⟩,
    ⟨by decide, frameIndex_reset_policy.2.2.2.1 _ "src" [] (by decide)⟩⟩
  exact frameIndex_reset_policy.2.2.2.2.2.2.1 _ 10 10 0 0 (by decide)

/-- The deterministic recording timeline state
(src/unnamed/part_003 lines 82-83 and 343-353): the frame counter
`recordedFramesRef` (a JavaScript number, modelled as `ℚ`) and
whether `recorder.stop()` has been requested. -/
structure RecordingState where
  recordedFrames : ℚ
  stopRequested : Bool
deriving DecidableEq, Repr

/-- One recording tick of `render` (src/unnamed/part_003 lines
343-353): the kernel time is `recordedFrames / fps` (a deterministic
timeline, not wall clock), the counter is incremented,
`onRecordProgress(true, max(0, duration - elapsed))` is fired, and
when `elapsed ≥ duration` the recorder is stopped.  Returns the new
state together with the reported `timeLeft`. -/
def recordTick (fps duration : ℚ) (s : RecordingState) : RecordingState × ℚ :=
  let elapsed := s.recordedFrames / fps
  let timeLeft := max 0 (duration - elapsed)
  (⟨s.recordedFrames + 1, s.stopRequested || decide (duration ≤ elapsed)⟩, timeLeft)

/-- The recording state after `n` render ticks, starting from the
fresh state `startVideo` sets up (`recordedFramesRef = 0`,
src/unnamed/part_003 line 175).  Once the stop request has been
issued the recording branch no longer runs. -/
def recordRun (fps duration : ℚ) : ℕ → RecordingState
  | 0 => ⟨0, false⟩
  | n + 1 =>
    let s := recordRun fps duration n
    if s.stopRequested then s else (recordTick fps duration s).1

/-- Closed form of the recording loop: as long as every elapsed tick's
timeline value stayed strictly below the duration, no stop has been
requested and the frame counter equals the number of ticks. -/
theorem recordRun_closed (fps duration : ℚ) (n : ℕ)
    (h : ∀ j : ℕ, j < n → (j : ℚ) / fps < duration) :
    recordRun fps duration n = ⟨n, false⟩ := by
  induction n with
  | zero => rfl
  | succ n ih =>
    have hn : recordRun fps duration n = ⟨n, false⟩ :=
      ih fun j hj => h j (Nat.lt_succ_of_lt hj)
    have hlast : (n : ℚ) / fps < duration := h n (Nat.lt_succ_self n)
    simp only [recordRun, hn, recordTick]
    have hstop : ¬ duration ≤ (n : ℚ) / fps := not_le.2 hlast
    simp [hstop]

/-- C8: recording at `fps = 30`, `duration = 5` renders exactly 150
frames to the encoder: for every `k < 150` the `k+1`-st tick starts
from counter `k` with no stop requested and feeds the kernel the
simulated timeline value `k / 30 < 5` (`0.0 s` for the first tick,
`149/30 ≈ 4.967 s` for the 150th); after those 150 ticks the counter
reads 150 with no stop requested, and the next tick reports
`timeLeft = 0` and requests the automatic stop. -/
theorem recording_deterministic_timeline :
    recordRun 30 5 150 = ⟨150, false⟩ ∧
    (∀ k : ℕ, k < 150 → recordRun 30 5 k = ⟨k, false⟩ ∧ (k : ℚ) / 30 < 5) ∧
    recordTick 30 5 ⟨150, false⟩ = (⟨151, true⟩, 0) ∧
    recordRun 30 5 151 = ⟨151, true⟩ ∧
    (4966/1000 : ℚ) < 149/30 ∧ (149/30 : ℚ) < 4967/1000 := by
  have hbound : ∀ j : ℕ, j < 150 → (j : ℚ) / 30 < 5 := by
    intro j hj
    have hq : (j : ℚ) < 150 := by exact_mod_cast hj
    rw [div_lt_iff₀ (by norm_num : (0:ℚ) < 30)]
    linarith
  have h150 : recordRun 30 5 150 = ⟨150, false⟩ := recordRun_closed 30 5 150 hbound
  have htick : recordTick 30 5 ⟨150, false⟩ = (⟨151, true⟩, 0) := by
    simp only [recordTick]
    norm_num
  refine ⟨h150, ?_, htick, ?_, by norm_num, by norm_num⟩
  · intro k hk
    refine ⟨recordRun_closed 30 5 k (fun j hj => hbound j (hj.trans hk)), hbound k hk⟩
  · have hsucc : recordRun 30 5 (150 + 1) =
        if (recordRun 30 5 150).stopRequested then recordRun 30 5 150
        else (recordTick 30 5 (recordRun 30 5 150)).1 := rfl
    have h151 : (151 : ℕ) = 150 + 1 := rfl
    rw [h151, hsucc, h150]
    simp [htick]

/-- Witness for C8: the 150th tick (index `k = 149`) starts from
counter 149 with no stop requested and uses timeline value
`149/30 < 5`. -/
theorem recording_deterministic_timeline_witness :
    (149 : ℕ) < 150 ∧ recordRun 30 5 149 = ⟨149, false⟩ ∧ ((149 : ℕ) : ℚ) / 30 < 5 := by
  have h := recording_deterministic_timeline.2.1 149 (by norm_num)
  exact ⟨by norm_num, h.1, h.2⟩

/-- The host's debounced shader-edit mechanism
(src/unnamed/part_000 lines 20-26): each edit cancels the pending
`setTimeout` and schedules `setShaderCode(newCode)` 500 ms later, and
the renderer recompiles once the code value changes
(src/unnamed/part_003 lines 292-296).  For a time-ascending list of
`(time, text)` edits this computes the `(fireTime, text)` pairs that
actually reach recompilation: an edit's timer survives exactly when
the next edit arrives at or after its deadline `time + delay` (a
later edit clears a still-pending timer; a timer that already fired
cannot be cleared). -/
def debounceFires (delay : ℚ) : List (ℚ × String) → List (ℚ × String)
  | [] => []
  | [(t, x)] => [(t + delay, x)]
  | (t, x) :: (t2, y) :: rest =>
    if t2 < t + delay then debounceFires delay ((t2, y) :: rest)
    else (t + delay, x) :: debounceFires delay ((t2, y) :: rest)

/-- C9: edits arriving at t = 0, 100, 200 and 480 ms under the 500 ms
debounce coalesce into exactly one recompilation, carrying the text
of the 480 ms edit, fired at 980 ms — at least 500 ms after that last
edit. -/
theorem debounce_coalesces_edits (a b c d : String) :
    debounceFires 500 [(0, a), (100, b), (200, c), (480, d)] = [(980, d)] ∧
    (480 : ℚ) + 500 ≤ 980 := by
  constructor
  · have h1 : (100 : ℚ) < 0 + 500 := by norm_num
    have h2 : (200 : ℚ) < 100 + 500 := by norm_num
    have h3 : (480 : ℚ) < 200 + 500 := by norm_num
    simp only [debounceFires, if_pos h1, if_pos h2, if_pos h3]
    norm_num
  · norm_num
